import Mathlib

/-!
# Verification of the Skylight link-catalog builder (`build.py`)

A shallow embedding of `build.py`: Python values are modelled by the
inductive `Value`, fallible Python operations (built-in coercions that can
raise, `re.findall` on a non-string, `in` on an unhashable value, YAML
parsing) return `Except Unit`, where `.error ()` models an uncaught Python
exception.  Strings are manipulated through their character lists so that
every definition evaluates by `rfl`/`decide`.
-/

/-- A Python/YAML value as it can appear in a parsed source document.
Dictionaries are association lists with string keys (entry fields are
always string-keyed in the source documents). -/
inductive Value where
  | vnone : Value
  | vbool : Bool → Value
  | vint : Int → Value
  | vstr : String → Value
  | vlist : List Value → Value
  | vdict : List (String × Value) → Value
deriving Repr, BEq

/-- Python truthiness (`bool(v)`): `None`, `False`, `0`, `""`, `[]`, empty dicts
are falsy, everything else truthy. -/
def Value.truthy : Value → Bool
  | .vnone => false
  | .vbool b => b
  | .vint n => n != 0
  | .vstr s => s != ""
  | .vlist xs => !xs.isEmpty
  | .vdict kvs => !kvs.isEmpty

/-- `d.get(k, dflt)` on a dict: the stored value when the key is present
(which may itself be `None`), the default otherwise. -/
def dictGet (kvs : List (String × Value)) (k : String) (dflt : Value) : Value :=
  match kvs.find? (fun p => p.1 == k) with
  | some p => p.2
  | none => dflt

/-- Python single-quote rendering used by `repr` of a string. -/
def pyQuote (s : String) : String := "\x27" ++ s ++ "\x27"

/-- `", "`-joined concatenation (structural, used instead of
`String.intercalate` so concrete evaluation is definitional). -/
def joinWith (sep : String) : List String → String
  | [] => ""
  | [x] => x
  | x :: xs => x ++ sep ++ joinWith sep xs

mutual
/-- Structural size of a value, used as recursion fuel for `repr`. -/
def Value.size : Value → Nat
  | .vnone => 1
  | .vbool _ => 1
  | .vint _ => 1
  | .vstr _ => 1
  | .vlist xs => Value.sizeList xs + 1
  | .vdict kvs => Value.sizeKVs kvs + 1

/-- Total size of a list of values. -/
def Value.sizeList : List Value → Nat
  | [] => 0
  | v :: vs => Value.size v + Value.sizeList vs

/-- Total size of the values of an association list. -/
def Value.sizeKVs : List (String × Value) → Nat
  | [] => 0
  | kv :: kvs => Value.size kv.2 + Value.sizeKVs kvs
end

/-- Fuel-indexed `repr(v)`; the fuel only bounds nesting depth and any
fuel at least `Value.size v` computes the full rendering. -/
def pyReprAux : Nat → Value → String
  | 0, _ => ""
  | _ + 1, .vnone => "None"
  | _ + 1, .vbool b => if b then "True" else "False"
  | _ + 1, .vint n => toString n
  | _ + 1, .vstr s => pyQuote s
  | f + 1, .vlist xs => "[" ++ joinWith ", " (xs.map (pyReprAux f)) ++ "]"
  | f + 1, .vdict kvs =>
      "\x7b" ++ joinWith ", " (kvs.map (fun kv => pyQuote kv.1 ++ ": " ++ pyReprAux f kv.2)) ++ "\x7d"

/-- Python `repr(v)`. -/
def pyReprOf (v : Value) : String := pyReprAux (Value.size v) v

/-- Python `str(v)`: identical to `repr(v)` except on strings, which are
returned verbatim. -/
def pyStrOf : Value → String
  | .vstr s => s
  | v => pyReprOf v

/-- The ASCII whitespace characters stripped by Python `str.strip()` /
`int(str)` (Unicode space classes are not modelled; no claim involves
them). -/
def isPySpace (c : Char) : Bool :=
  c = ' ' || c = '\t' || c = '\n' || c = '\r' || c = '\x0b' || c = '\x0c'

/-- Python `str.strip()` (ASCII whitespace). -/
def pyStrStrip (s : String) : String :=
  ⟨((s.data.dropWhile isPySpace).reverse.dropWhile isPySpace).reverse⟩

/-- Digit-sequence validity for Python `int(str)`: one or more digits with
single underscores allowed only between digits. -/
def validIntTail : List Char → Bool
  | [] => true
  | '_' :: c :: cs => c.isDigit && validIntTail cs
  | '_' :: [] => false
  | c :: cs => c.isDigit && validIntTail cs

/-- Non-empty digit sequence (underscore-separated) for `int(str)`. -/
def validIntDigits : List Char → Bool
  | [] => false
  | c :: cs => c.isDigit && validIntTail cs

/-- Numeric value of a digit list (underscores already removed). -/
def digitsVal (ds : List Char) : Int :=
  ds.foldl (fun acc c => acc * 10 + (Int.ofNat (c.toNat - 48))) 0

/-- Python `int(s)` for a string argument: optional surrounding
whitespace, optional sign, then digits; raises `ValueError` otherwise. -/
def pyIntOfStr (s : String) : Except Unit Int :=
  let t := ((s.data.dropWhile isPySpace).reverse.dropWhile isPySpace).reverse
  let signed : Int × List Char :=
    match t with
    | '+' :: r => (1, r)
    | '-' :: r => (-1, r)
    | r => (1, r)
  if validIntDigits signed.2 then
    .ok (signed.1 * digitsVal (signed.2.filter (fun c => c != '_')))
  else .error ()

/-- Python `int(v)` as used at `build.py:168` (`int(entry.get("priority", 0))`):
ints pass through, bools coerce to 0/1, strings are parsed, everything
else (`None`, lists, dicts) raises. -/
def pyIntE : Value → Except Unit Int
  | .vint n => .ok n
  | .vbool b => .ok (if b then 1 else 0)
  | .vstr s => pyIntOfStr s
  | _ => .error ()

/-- Python `list(v)` as used at `build.py:169` (`list(entry.get("types", []))`):
lists are copied, a string becomes its characters, a dict its keys;
`None`, ints and bools are not iterable and raise `TypeError`. -/
def pyListE : Value → Except Unit (List Value)
  | .vlist xs => .ok xs
  | .vstr s => .ok (s.data.map (fun c => Value.vstr ⟨[c]⟩))
  | .vdict kvs => .ok (kvs.map (fun kv => Value.vstr kv.1))
  | _ => .error ()

/-- Hashability of a value: lists and dicts are unhashable, so using them
as the left operand of `in` over a set raises `TypeError`. -/
def hashableB : Value → Bool
  | .vlist _ => false
  | .vdict _ => false
  | _ => true

/-- Membership of a value in a set of strings, for hashable values: only
an equal string is a member (ints, bools, `None` are never equal to a
string). -/
def membStrSet (v : Value) (set : List String) : Bool :=
  match v with
  | .vstr s => set.contains s
  | _ => false

/-- Python `v in set_of_strings`: membership for hashable values,
`TypeError` for unhashable ones. -/
def valueMemE (v : Value) (set : List String) : Except Unit Bool :=
  if hashableB v then .ok (membStrSet v set) else .error ()

/-! ## Schema Registry (`build.py:32-68`) -/

/-- Filename stem → display category name (`FILENAME_TO_CATEGORY`). -/
def FILENAME_TO_CATEGORY : List (String × String) :=
  [("archives-press", "Archives & Press"),
   ("environment-science", "Environment & Science"),
   ("government-legal", "Government & Legal"),
   ("hash-cracking", "Hash Cracking"),
   ("historical", "Historical"),
   ("maps", "Maps"),
   ("network-scanning", "Network Scanning"),
   ("people-search", "People Search"),
   ("search-files", "Search & Files"),
   ("social-video", "Social & Video"),
   ("social-profiles", "Social Profiles"),
   ("threat-intelligence", "Threat Intelligence"),
   ("username-search", "Username Search"),
   ("validation-tools", "Validation & Tools"),
   ("vehicle-lookup", "Vehicle Lookup"),
   ("whois-dns", "WHOIS & DNS")]

/-- `FILENAME_TO_CATEGORY.get(stem)`. -/
def lookupCategory (stem : String) : Option String :=
  (FILENAME_TO_CATEGORY.find? (fun p => p.1 == stem)).map (fun p => p.2)

/-- All input types recognised by Skylight (`KNOWN_TYPES`). -/
def KNOWN_TYPES : List String :=
  ["name", "alias", "domain", "email-address", "ip-address", "IPV6",
   "phone-number", "hashtag", "url", "gps-coordinates", "crypto-address",
   "VIN", "hash", "any"]

/-- Recognised paywall tiers (`KNOWN_PAYWALLS`). -/
def KNOWN_PAYWALLS : List String := ["Free", "Freemium", "Paid"]

/-- Recognised URL-placeholder formatter names (`KNOWN_FORMATTERS`). -/
def KNOWN_FORMATTERS : List String :=
  ["urlEncode", "base64", "lower", "upper",
   "stripPunct", "spaceToNothing", "spaceToDash", "spaceToDot",
   "userFromEmail", "domainFromEmail", "firstName", "lastName",
   "noEncoding", "firstIP"]

/-! ## Error message strings (verbatim from `build.py`; `\x7b`/`\x7d` are
the brace characters, `\x27` the single quote) -/

/-- `build.py:80`. -/
def msgMissing (loc field : String) : String :=
  loc ++ ": missing required field \x27" ++ field ++ "\x27"

/-- `build.py:83`. -/
def msgTypesList (loc : String) : String :=
  loc ++ ": \x27types\x27 must be a non-empty list"

/-- `build.py:87`. -/
def msgUnknownType (loc : String) (t : Value) : String :=
  loc ++ ": unknown type \x27" ++ pyStrOf t ++
    "\x27 — add it to KNOWN_TYPES in build.py if intentional"

/-- `build.py:91`; the set `KNOWN_PAYWALLS` is rendered in one fixed
iteration order (CPython set rendering order is irrelevant to every
claim). -/
def msgPayWall (loc : String) (pw : Value) : String :=
  loc ++ ": payWall must be one of \x7b\x27Free\x27, \x27Freemium\x27, \x27Paid\x27\x7d, got \x27" ++
    pyStrOf pw ++ "\x27"

/-- `build.py:96`. -/
def msgUnknownFormatter (loc fmt : String) : String :=
  loc ++ ": unknown formatter \x27" ++ fmt ++
    "\x27 in URL — add it to KNOWN_FORMATTERS in build.py if intentional"

/-- `build.py:149`. -/
def msgDup (fname eid : String) : String :=
  fname ++ " id=" ++ eid ++ ": duplicate ID — each link must have a unique id"

/-- `build.py:132`. -/
def msgParse (fname exc : String) : String :=
  fname ++ ": YAML parse error — " ++ exc

/-- `build.py:136`. -/
def msgTopLevel (fname : String) : String :=
  fname ++ ": expected a YAML list at the top level"

/-- `build.py:142`. -/
def msgNotMapping (fname : String) : String :=
  fname ++ ": each entry must be a mapping (dict)"

/-! ## URL-template placeholders (`build.py:61`)

`PLACEHOLDER_RE = re.compile(r"\x7b(\w+)(?:[|:](\w+))?\x7d")` and
`PLACEHOLDER_RE.findall(url)`: non-overlapping left-to-right matches,
each yielding `(name, formatter)` with `formatter = ""` when the optional
group is absent.  Because `\w+` is greedy over word characters and the
characters `|`, `:`, `\x7d` are not word characters, the regex match at a
given position is equivalent to the deterministic parse below. -/

/-- `\w` for ASCII text: letters, digits, underscore. -/
def isWordChar (c : Char) : Bool := c.isAlphanum || c = '_'

/-- Maximal leading word-character run and the remainder. -/
def takeWord : List Char → List Char × List Char
  | [] => ([], [])
  | c :: cs =>
      if isWordChar c then
        let r := takeWord cs
        (c :: r.1, r.2)
      else ([], c :: cs)

/-- Attempt to match the body of a placeholder right after its opening
brace: `name\x7d`, `name|fmt\x7d` or `name:fmt\x7d`; returns the captured
pair and the remaining input on success. -/
def tryPlaceholder (cs : List Char) : Option (String × String × List Char) :=
  let w1 := takeWord cs
  if w1.1.isEmpty then none
  else
    match w1.2 with
    | '\x7d' :: rest => some (⟨w1.1⟩, "", rest)
    | sep :: r2 =>
        if sep = '|' || sep = ':' then
          let w2 := takeWord r2
          if w2.1.isEmpty then none
          else
            match w2.2 with
            | '\x7d' :: rest => some (⟨w1.1⟩, ⟨w2.1⟩, rest)
            | _ => none
        else none
    | [] => none

/-- Fuel-indexed scan; the input shrinks at every step, so any fuel at
least the input length computes the full match list. -/
def scanAux : Nat → List Char → List (String × String)
  | 0, _ => []
  | _, [] => []
  | fuel + 1, '\x7b' :: cs =>
      match tryPlaceholder cs with
      | some (n, f, rest) => (n, f) :: scanAux fuel rest
      | none => scanAux fuel cs
  | fuel + 1, _ :: cs => scanAux fuel cs

/-- `PLACEHOLDER_RE.findall(url)`. -/
def scanPlaceholders (s : String) : List (String × String) :=
  scanAux (s.data.length + 1) s.data

example : scanPlaceholders "https://e.com/\x7bemail|urlEncode\x7d" = [("email", "urlEncode")] := rfl
example : scanPlaceholders "\x7bname\x7d x \x7ba:b\x7d" = [("name", ""), ("a", "b")] := rfl
example : scanPlaceholders "\x7ba|\x7d \x7b\x7d \x7ba|b|c\x7d" = [] := rfl

/-! ## Favicon derivation (`build.py:102-108`)

`urlparse(url).hostname` is modelled after CPython `urllib.parse`:
tab/CR/LF are removed, an RFC-3986 scheme prefix is stripped, the network
location is the run after a leading `//` up to the first `/`, `?` or `#`,
a bracket mismatch in the netloc raises `ValueError` (`Invalid IPv6
URL`), and the hostname is the part of the netloc after the last `@` and
before the port separator (or inside the brackets), lower-cased, `None`
when empty. -/

/-- Characters CPython removes from a URL before parsing. -/
def removeTabCrLf (s : String) : List Char :=
  s.data.filter (fun c => c != '\t' && c != '\r' && c != '\n')

/-- Split at the first occurrence of a character: `(before, after)`. -/
def breakAtFirst (c : Char) : List Char → Option (List Char × List Char)
  | [] => none
  | x :: xs =>
      if x = c then some ([], xs)
      else (breakAtFirst c xs).map (fun p => (x :: p.1, p.2))

/-- Characters allowed in a scheme after its initial letter. -/
def isSchemeChar (c : Char) : Bool := c.isAlphanum || c = '+' || c = '-' || c = '.'

/-- Strip a `scheme:` prefix when the part before the first `:` is a
non-empty ASCII letter followed by scheme characters (`urlsplit`). -/
def stripScheme (cs : List Char) : List Char :=
  match breakAtFirst ':' cs with
  | some (pre, post) =>
      match pre with
      | [] => cs
      | c0 :: rest => if c0.isAlpha && rest.all isSchemeChar then post else cs
  | none => cs

/-- The part of a list after the last occurrence of a character
(`str.rpartition(c)[2]`, the whole list when absent). -/
def afterLast (c : Char) (cs : List Char) : List Char :=
  ((cs.reverse.takeWhile (fun x => x != c)).reverse)

/-- The part after the first occurrence (`str.partition(c)[2]`, empty
when absent). -/
def afterFirst (c : Char) (cs : List Char) : List Char :=
  match breakAtFirst c cs with
  | some p => p.2
  | none => []

/-- `urlparse(url).hostname`: `.ok none` when there is no hostname,
`.error ()` when `urlparse` raises. -/
def pyHostname (url : String) : Except Unit (Option String) :=
  let cs := removeTabCrLf url
  let rest := stripScheme cs
  let netloc : List Char :=
    if rest.take 2 = ['/', '/'] then
      (rest.drop 2).takeWhile (fun c => c != '/' && c != '?' && c != '#')
    else []
  if (netloc.contains '[' && !netloc.contains ']') ||
     (netloc.contains ']' && !netloc.contains '[') then .error ()
  else
    let hostinfo := afterLast '@' netloc
    let host : List Char :=
      if hostinfo.contains '[' then (afterFirst '[' hostinfo).takeWhile (fun c => c != ']')
      else hostinfo.takeWhile (fun c => c != ':')
    if host.isEmpty then .ok none
    else .ok (some ⟨host.map Char.toLower⟩)

/-- `favicon_url` (`build.py:102-108`): derive a Google S2 favicon URL
from a link URL; `host = urlparse(url).hostname or ""`, and any exception
is swallowed into the empty string. -/
def favicon_url (url : String) : String :=
  match pyHostname url with
  | .error _ => ""
  | .ok h => "https://www.google.com/s2/favicons?domain=" ++ h.getD "" ++ "&sz=32"

example : pyHostname "https://sub.example.co.uk/path" = .ok (some "sub.example.co.uk") := rfl
example : pyHostname "" = .ok none := rfl
example : pyHostname "http://[::1" = .error () := rfl
example : pyHostname "http://User@HOST.com:8080/p" = .ok (some "host.com") := rfl
example : favicon_url "https://sub.example.co.uk/path" =
    "https://www.google.com/s2/favicons?domain=sub.example.co.uk&sz=32" := rfl

example : pyStrOf (.vlist [.vstr "a", .vint 3]) = "[\x27a\x27, 3]" := rfl
example : pyIntOfStr " 42 " = .ok 42 := rfl
example : pyIntOfStr "abc" = .error () := rfl
example : pyIntOfStr "-1_0" = .ok (-10) := rfl
example : pyStrStrip "\thttps://x \n" = "https://x" := by decide
example : pyHostname "not a url" = .ok none := rfl
example : pyHostname "1http://a.b/" = .ok none := rfl
example : pyHostname "http:example.com" = .ok none := rfl
example : pyHostname "//host/x" = .ok (some "host") := rfl

/-! ## Entry Validator (`build.py:72-98`)

`validate_entry(entry, source)` returns a list of error strings; the
checks run in source order (presence, `types`, `payWall`, URL
formatters) and their errors are concatenated in that order.  The
function can itself raise: `PLACEHOLDER_RE.findall` raises `TypeError`
on a non-string `url` value, and `in` over a string set raises
`TypeError` on an unhashable (list/dict) operand; an `.error ()` result
models such an exception, which would propagate out of `build`. -/

/-- The location prefix `f"\x7bsource\x7d id=\x7beid\x7d"` (`build.py:75-76`). -/
def locOf (kvs : List (String × Value)) (source : String) : String :=
  source ++ " id=" ++ pyStrOf (dictGet kvs "id" (.vstr "?"))

/-- Presence check (`build.py:78-80`): one error per required field that
is absent or falsy. -/
def presenceErrs (kvs : List (String × Value)) (loc : String) : List String :=
  (["id", "display", "url", "types"].filter
      (fun f => !(dictGet kvs f .vnone).truthy)).map (fun f => msgMissing loc f)

/-- Per-element membership check of the `types` list (`build.py:85-87`):
one error per element outside `KNOWN_TYPES`, in element order; raises on
an unhashable element. -/
def typeElemErrs (loc : String) : List Value → Except Unit (List String)
  | [] => .ok []
  | t :: ts => do
      let b ← valueMemE t KNOWN_TYPES
      let rest ← typeElemErrs loc ts
      pure ((if b then [] else [msgUnknownType loc t]) ++ rest)

/-- The `types` check (`build.py:82-87`): a single error when the value
is not a non-empty list, else the per-element check. -/
def typesErrsE (loc : String) (tv : Value) : Except Unit (List String) :=
  match tv with
  | .vlist ts => if ts.isEmpty then .ok [msgTypesList loc] else typeElemErrs loc ts
  | _ => .ok [msgTypesList loc]

/-- The `payWall` check (`build.py:89-91`), default `"Free"`. -/
def paywallErrE (loc : String) (pw : Value) : Except Unit (List String) := do
  let b ← valueMemE pw KNOWN_PAYWALLS
  pure (if b then [] else [msgPayWall loc pw])

/-- Formatter errors of a URL string (`build.py:94-96`): one error per
placeholder occurrence whose formatter is non-empty and unrecognised. -/
def fmtErrs (loc : String) (u : String) : List String :=
  ((scanPlaceholders u).filter
      (fun p => p.2 != "" && !(KNOWN_FORMATTERS.contains p.2))).map
    (fun p => msgUnknownFormatter loc p.2)

/-- The URL-formatter check on the raw `url` value (default `""`):
`findall` raises `TypeError` when the value is not a string. -/
def fmtErrsE (loc : String) (uv : Value) : Except Unit (List String) :=
  match uv with
  | .vstr u => .ok (fmtErrs loc u)
  | _ => .error ()

/-- `validate_entry(entry, source)` (`build.py:72-98`). -/
def validate_entry (kvs : List (String × Value)) (source : String) :
    Except Unit (List String) := do
  let loc := locOf kvs source
  let e1 := presenceErrs kvs loc
  let e2 ← typesErrsE loc (dictGet kvs "types" .vnone)
  let e3 ← paywallErrE loc (dictGet kvs "payWall" (.vstr "Free"))
  let e4 ← fmtErrsE loc (dictGet kvs "url" (.vstr ""))
  pure (e1 ++ e2 ++ e3 ++ e4)

/-! ## Build Orchestrator (`build.py:111-204`) -/

/-- One normalized Output Link Record (`build.py:158-171`).  All fields
are concretely typed except `icon`, which keeps the raw entry value when
that value is truthy. -/
structure Link where
  id : String
  provider : String
  display : String
  icon : Value
  description : String
  region : String
  payWall : String
  url : String
  category : String
  priority : Int
  types : List Value
  autorun : Bool
deriving Repr, BEq

/-- Build the final output object for one entry (`build.py:156-171`):
defaults filled in, `url` stripped, `icon` derived via `favicon_url`
when the explicit value is falsy; `int(...)` on `priority` and
`list(...)` on `types` can raise. -/
def mkLink (category eid : String) (kvs : List (String × Value)) : Except Unit Link := do
  let url := pyStrStrip (pyStrOf (dictGet kvs "url" (.vstr "")))
  let iconv := dictGet kvs "icon" .vnone
  let pr ← pyIntE (dictGet kvs "priority" (.vint 0))
  let tys ← pyListE (dictGet kvs "types" (.vlist []))
  pure
    { id := eid
      provider := pyStrOf (dictGet kvs "provider" (.vstr ""))
      display := pyStrOf (dictGet kvs "display" (.vstr ""))
      icon := if iconv.truthy then iconv else .vstr (favicon_url url)
      description := pyStrOf (dictGet kvs "description" (.vstr ""))
      region := pyStrOf (dictGet kvs "region" (.vstr "Global"))
      payWall := pyStrOf (dictGet kvs "payWall" (.vstr "Free"))
      url := url
      category := category
      priority := pr
      types := tys
      autorun := (dictGet kvs "autorun" (.vbool false)).truthy }

/-- The accumulator threaded through one run (`build.py:112-114`):
ordered error list, ordered link list, identifiers seen so far. -/
structure BState where
  errors : List String
  links : List Link
  seen : List String
deriving Repr, BEq

/-- Process one parsed entry of a file (`build.py:140-172`): non-mappings
record one error and are skipped; otherwise the duplicate check runs,
the identifier is marked seen, the validator's errors are appended, and
the normalized record is appended regardless of validation outcome. -/
def processEntry (fname category : String) (st : BState) (e : Value) :
    Except Unit BState :=
  match e with
  | .vdict kvs => do
      let eid := pyStrOf (dictGet kvs "id" (.vstr ""))
      let dupErrs := if st.seen.contains eid then [msgDup fname eid] else []
      let seen2 := if st.seen.contains eid then st.seen else st.seen ++ [eid]
      let verrs ← validate_entry kvs fname
      let l ← mkLink category eid kvs
      pure { errors := st.errors ++ dupErrs ++ verrs
             links := st.links ++ [l]
             seen := seen2 }
  | _ => .ok { st with errors := st.errors ++ [msgNotMapping fname] }

/-- One source file: its filename stem and the result of
`yaml.safe_load` on its contents (`.error exc` is a YAML parse failure
with message `exc`). -/
structure SourceFile where
  stem : String
  content : Except String Value

/-- The filename of a discovered `*.yaml` file. -/
def fileName (f : SourceFile) : String := f.stem ++ ".yaml"

/-- Process one file (`build.py:121-176`): an unmapped stem is skipped
with a warning; a parse failure or a non-list top level records one
error for the file; otherwise every entry is processed in order. -/
def processFile (st : BState) (f : SourceFile) : Except Unit BState :=
  match lookupCategory f.stem with
  | none => .ok st
  | some category =>
      match f.content with
      | .error exc => .ok { st with errors := st.errors ++ [msgParse (fileName f) exc] }
      | .ok v =>
          match v with
          | .vlist entries => entries.foldlM (processEntry (fileName f) category) st
          | _ => .ok { st with errors := st.errors ++ [msgTopLevel (fileName f)] }

/-- The generated output document (`build.py:192-197`). -/
structure OutputDoc where
  note : String
  version : String
  updatedAt : String
  links : List Link
deriving Repr, BEq

/-- The fixed advisory note of the output document. -/
def outputNote : String :=
  "DO NOT EDIT — generated by build.py from links/*.yaml. Edit the YAML files instead."

/-- The observable outcome of one completed run: the exit code, the
document written to `links.json` (`none` when nothing is written), and
the final accumulator state. -/
structure Outcome where
  code : Int
  output : Option OutputDoc
  errors : List String
  links : List Link
  seen : List String
deriving Repr, BEq

/-- `build(check_only)` (`build.py:111-204`) over the sorted list of
discovered source files; `today` is the ISO date.  `.error ()` models an
exception escaping `build` (only the unguarded coercions can cause
one). -/
def build (files : List SourceFile) (today : String) (check_only : Bool) :
    Except Unit Outcome :=
  if files.isEmpty then .ok ⟨1, none, [], [], []⟩
  else do
    let st ← files.foldlM processFile ⟨[], [], []⟩
    if st.errors.isEmpty then
      if check_only then pure ⟨0, none, st.errors, st.links, st.seen⟩
      else
        pure ⟨0, some ⟨outputNote, "1.0.0", today, st.links⟩,
          st.errors, st.links, st.seen⟩
    else .ok ⟨1, none, st.errors, st.links, st.seen⟩

/-! ## Claim C1 — favicon derivation

The claim states that whenever parsing fails *or the extracted hostname
is empty* the derived icon is the empty string.  The code
(`build.py:105`) turns an absent hostname into `""` via
`urlparse(url).hostname or ""` and then *still formats it into the
favicon URL*: only the exception path returns `""`.  So an empty
hostname yields `https://www.google.com/s2/favicons?domain=&sz=32`, not
`""`: the claim is corrected. -/

/-- C1, counterexample: for the input `""` (hostname empty, no parse
error) the Favicon Deriver returns the full favicon URL with an empty
`domain=` parameter, not the empty string the claim requires. -/
theorem claim_C1_counterexample :
    favicon_url "" = "https://www.google.com/s2/favicons?domain=&sz=32" ∧
    favicon_url "" ≠ "" := by
  exact ⟨rfl, by decide⟩

/-- C1, amended: for every input URL the Favicon Deriver returns
`https://www.google.com/s2/favicons?domain=<hostname>&sz=32` where
`<hostname>` is the parsed hostname *or the empty string when there is
no hostname*; only when hostname extraction raises is the result the
empty string (it never propagates an exception — the embedding is a
total function); and on `https://sub.example.co.uk/path` the derived
icon is the URL the spec gives. -/
theorem claim_C1_amended :
    (∀ url h, pyHostname url = .ok h →
        favicon_url url =
          "https://www.google.com/s2/favicons?domain=" ++ h.getD "" ++ "&sz=32") ∧
    (∀ url, pyHostname url = .error () → favicon_url url = "") ∧
    favicon_url "https://sub.example.co.uk/path" =
      "https://www.google.com/s2/favicons?domain=sub.example.co.uk&sz=32" := by
  refine ⟨fun url h hok => ?_, fun url herr => ?_, rfl⟩
  · unfold favicon_url
    rw [hok]
  · unfold favicon_url
    rw [herr]

/-- C1 witness: the amended theorem applied at the spec's example URL
(hostname present) and at `http://[::1` (an unclosed bracket makes
`urlparse` raise `ValueError`). -/
theorem claim_C1_witness :
    favicon_url "https://sub.example.co.uk/path" =
      "https://www.google.com/s2/favicons?domain=" ++
        (some "sub.example.co.uk").getD "" ++ "&sz=32" ∧
    favicon_url "http://[::1" = "" :=
  ⟨claim_C1_amended.1 "https://sub.example.co.uk/path" (some "sub.example.co.uk") rfl,
   claim_C1_amended.2.1 "http://[::1" rfl⟩

/-! ## Claim C2 — error propagation

The claim states the run *never* raises to the caller, for every input
including a non-integer `priority` string.  But `build.py:168` runs
`int(entry.get("priority", 0))` unguarded: on `priority: "abc"` the
`ValueError` escapes `build` (exactly the open question spec §9
records).  The claim is corrected. -/

/-- A single otherwise-valid `maps.yaml` entry whose `priority` is the
non-integer string `"abc"`. -/
def badPriorityFiles : List SourceFile :=
  [⟨"maps", .ok (.vlist [.vdict
      [("id", .vstr "a"), ("display", .vstr "d"),
       ("url", .vstr "https://example.com"),
       ("types", .vlist [.vstr "name"]),
       ("priority", .vstr "abc")]])⟩]

/-- C2, counterexample: on a source set containing one entry with
`priority: "abc"` the run does not return an exit status at all — the
unguarded `int(...)` coercion raises and the exception escapes `build`
(`.error ()` in the embedding), contradicting "never raises an exception
to the caller". -/
theorem claim_C2_counterexample :
    build badPriorityFiles "2026-01-01" false = .error () := rfl

/-- `.ok` test on an `Except`. -/
def isOkE {ε α : Type} : Except ε α → Bool
  | .ok _ => true
  | .error _ => false

/-- One entry neither raises in the validator nor in the unguarded
output-record coercions. -/
def entryRunsSafe (fname : String) (e : Value) : Bool :=
  match e with
  | .vdict kvs =>
      isOkE (validate_entry kvs fname) &&
      isOkE (pyIntE (dictGet kvs "priority" (.vint 0))) &&
      isOkE (pyListE (dictGet kvs "types" (.vlist [])))
  | _ => true

/-- Every processed entry of one file runs clean (skipped and failed
files process no entries at all). -/
def fileRunsSafe (f : SourceFile) : Bool :=
  match lookupCategory f.stem, f.content with
  | some _, .ok (.vlist es) => es.all (entryRunsSafe (fileName f))
  | _, _ => true

/-- No entry of any file hits an unguarded coercion failure. -/
def runNoCrash (files : List SourceFile) : Bool := files.all fileRunsSafe

/-- Reduction of `Except` bind on a success value. -/
theorem okBind {ε α β : Type} (a : α) (f : α → Except ε β) :
    (Except.ok a >>= f) = f a := rfl

theorem mkLink_ok_of_safe (category eid : String) (kvs : List (String × Value))
    (hpr : isOkE (pyIntE (dictGet kvs "priority" (.vint 0))) = true)
    (hty : isOkE (pyListE (dictGet kvs "types" (.vlist []))) = true) :
    ∃ l, mkLink category eid kvs = .ok l := by
  unfold mkLink
  cases h1 : pyIntE (dictGet kvs "priority" (.vint 0)) with
  | error e => rw [h1] at hpr; simp [isOkE] at hpr
  | ok pr =>
      cases h2 : pyListE (dictGet kvs "types" (.vlist [])) with
      | error e => rw [h2] at hty; simp [isOkE] at hty
      | ok tys => exact ⟨_, by simp only [h1, h2, okBind]; rfl⟩

theorem processEntry_ok_of_safe (fname category : String) (st : BState) (e : Value)
    (h : entryRunsSafe fname e = true) :
    ∃ st2, processEntry fname category st e = .ok st2 := by
  cases e with
  | vdict kvs =>
      simp only [entryRunsSafe, Bool.and_eq_true] at h
      obtain ⟨⟨hv, hpr⟩, hty⟩ := h
      cases hval : validate_entry kvs fname with
      | error u => rw [hval] at hv; simp [isOkE] at hv
      | ok verrs =>
          obtain ⟨l, hl⟩ := mkLink_ok_of_safe category
            (pyStrOf (dictGet kvs "id" (.vstr ""))) kvs hpr hty
          exact ⟨_, by simp only [processEntry, hval, hl, okBind]; rfl⟩
  | vnone => exact ⟨_, rfl⟩
  | vbool b => exact ⟨_, rfl⟩
  | vint n => exact ⟨_, rfl⟩
  | vstr s => exact ⟨_, rfl⟩
  | vlist xs => exact ⟨_, rfl⟩

theorem foldEntries_ok_of_safe (fname category : String) (es : List Value)
    (h : es.all (entryRunsSafe fname) = true) :
    ∀ st, ∃ st2, es.foldlM (processEntry fname category) st = .ok st2 := by
  induction es with
  | nil => exact fun st => ⟨st, rfl⟩
  | cons e es ih =>
      intro st
      simp only [List.all_cons, Bool.and_eq_true] at h
      obtain ⟨st1, h1⟩ := processEntry_ok_of_safe fname category st e h.1
      obtain ⟨st2, h2⟩ := ih h.2 st1
      exact ⟨st2, by simp [List.foldlM, h1, okBind, h2]⟩

theorem processFile_ok_of_safe (st : BState) (f : SourceFile)
    (h : fileRunsSafe f = true) :
    ∃ st2, processFile st f = .ok st2 := by
  unfold processFile
  unfold fileRunsSafe at h
  cases hcat : lookupCategory f.stem with
  | none => exact ⟨st, rfl⟩
  | some category =>
      cases hc : f.content with
      | error exc => exact ⟨_, rfl⟩
      | ok v =>
          cases v with
          | vlist es =>
              rw [hcat, hc] at h
              exact foldEntries_ok_of_safe (fileName f) category es h st
          | vnone => exact ⟨_, rfl⟩
          | vbool b => exact ⟨_, rfl⟩
          | vint n => exact ⟨_, rfl⟩
          | vstr s => exact ⟨_, rfl⟩
          | vdict kvs => exact ⟨_, rfl⟩

theorem foldFiles_ok_of_safe (files : List SourceFile)
    (h : runNoCrash files = true) :
    ∀ st, ∃ st2, files.foldlM processFile st = .ok st2 := by
  induction files with
  | nil => exact fun st => ⟨st, rfl⟩
  | cons f fs ih =>
      intro st
      simp only [runNoCrash, List.all_cons, Bool.and_eq_true] at h
      obtain ⟨st1, h1⟩ := processFile_ok_of_safe st f h.1
      obtain ⟨st2, h2⟩ := ih h.2 st1
      exact ⟨st2, by simp [List.foldlM, h1, okBind, h2]⟩

/-- C2, amended: for every input in which no entry trips an unguarded
built-in coercion (`int` on `priority`, `list` on `types`) or a
validator-internal `TypeError`, the run never raises an exception to the
caller — it completes with an outcome — and, when at least one source
file exists, the run-level exit status is determined solely by whether
the accumulated error list is empty (`0` iff empty, else `1`).  A
coercion failure instead propagates an exception, as the counterexample
shows and as spec §9 itself notes. -/
theorem claim_C2_amended (files : List SourceFile) (today : String) (check_only : Bool)
    (h : runNoCrash files = true) :
    ∃ out, build files today check_only = .ok out ∧
      (files ≠ [] → out.code = if out.errors.isEmpty then 0 else 1) := by
  cases files with
  | nil => exact ⟨⟨1, none, [], [], []⟩, rfl, fun hne => absurd rfl hne⟩
  | cons f fs =>
      obtain ⟨st, hst⟩ := foldFiles_ok_of_safe (f :: fs) h ⟨[], [], []⟩
      obtain ⟨errs, lks, sn⟩ := st
      cases errs with
      | nil =>
          cases check_only with
          | true =>
              exact ⟨⟨0, none, [], lks, sn⟩, by unfold build; rw [hst]; rfl, fun _ => rfl⟩
          | false =>
              exact ⟨⟨0, some ⟨outputNote, "1.0.0", today, lks⟩, [], lks, sn⟩,
                by unfold build; rw [hst]; rfl, fun _ => rfl⟩
      | cons e0 es0 =>
          exact ⟨⟨1, none, e0 :: es0, lks, sn⟩, by unfold build; rw [hst]; rfl, fun _ => rfl⟩

/-- A concrete clean one-file input: one valid `maps.yaml` entry. -/
def oneGoodFile : List SourceFile :=
  [⟨"maps", .ok (.vlist [.vdict
      [("id", .vstr "m1"), ("display", .vstr "M"),
       ("url", .vstr "https://maps.example.com"),
       ("types", .vlist [.vstr "gps-coordinates"])]])⟩]

/-- C2 witness: the amended theorem applied to the concrete one-file
input, whose no-crash hypothesis evaluates to `true`. -/
theorem claim_C2_witness :
    ∃ out, build oneGoodFile "2026-10-12" false = .ok out ∧
      (oneGoodFile ≠ [] → out.code = if out.errors.isEmpty then 0 else 1) :=
  claim_C2_amended oneGoodFile "2026-10-12" false rfl

/-! ## Claim C3 — duplicate identifiers -/

theorem processEntry_fresh (fname category eid : String) (st : BState)
    (kvs : List (String × Value)) (l : Link)
    (hid : pyStrOf (dictGet kvs "id" (.vstr "")) = eid)
    (hseen : st.seen.contains eid = false)
    (hval : validate_entry kvs fname = .ok [])
    (hmk : mkLink category eid kvs = .ok l) :
    processEntry fname category st (.vdict kvs) =
      .ok ⟨st.errors, st.links ++ [l], st.seen ++ [eid]⟩ := by
  simp only [processEntry, hid, hseen, hval, hmk, okBind]
  simp
  rfl

theorem processEntry_dupStep (fname category eid : String) (st : BState)
    (kvs : List (String × Value)) (l : Link)
    (hid : pyStrOf (dictGet kvs "id" (.vstr "")) = eid)
    (hseen : st.seen.contains eid = true)
    (hval : validate_entry kvs fname = .ok [])
    (hmk : mkLink category eid kvs = .ok l) :
    processEntry fname category st (.vdict kvs) =
      .ok ⟨st.errors ++ [msgDup fname eid], st.links ++ [l], st.seen⟩ := by
  simp only [processEntry, hid, hseen, hval, hmk, okBind]
  simp
  rfl


/-- C3: two entries with the same string identifier in two source files
of one run (each file otherwise error-free and mapped in the Registry):
exactly one duplicate-ID error is recorded, attributed to the later
occurrence (the second file), the identifier is still marked seen, both
normalized records are still appended to the link list in order, and —
the duplicate being an error — the run exits with status 1 and writes no
output document, in either build mode. -/
theorem claim_C3_duplicate_id
    (s1 s2 eid today : String) (ck : Bool)
    (kvs1 kvs2 : List (String × Value)) (l1 l2 : Link) (c1 c2 : String)
    (hc1 : lookupCategory s1 = some c1) (hc2 : lookupCategory s2 = some c2)
    (hid1 : pyStrOf (dictGet kvs1 "id" (.vstr "")) = eid)
    (hid2 : pyStrOf (dictGet kvs2 "id" (.vstr "")) = eid)
    (hv1 : validate_entry kvs1 (s1 ++ ".yaml") = .ok [])
    (hv2 : validate_entry kvs2 (s2 ++ ".yaml") = .ok [])
    (hm1 : mkLink c1 eid kvs1 = .ok l1)
    (hm2 : mkLink c2 eid kvs2 = .ok l2) :
    build [⟨s1, .ok (.vlist [.vdict kvs1])⟩, ⟨s2, .ok (.vlist [.vdict kvs2])⟩]
        today ck =
      .ok ⟨1, none, [msgDup (s2 ++ ".yaml") eid], [l1, l2], [eid]⟩ := by
  have h1 : processFile ⟨[], [], []⟩ ⟨s1, .ok (.vlist [.vdict kvs1])⟩ =
      .ok ⟨[], [l1], [eid]⟩ := by
    simp only [processFile, fileName, hc1, List.foldlM]
    rw [processEntry_fresh (s1 ++ ".yaml") c1 eid ⟨[], [], []⟩ kvs1 l1 hid1 rfl hv1 hm1]
    simp [okBind]
  have h2 : processFile ⟨[], [l1], [eid]⟩ ⟨s2, .ok (.vlist [.vdict kvs2])⟩ =
      .ok ⟨[msgDup (s2 ++ ".yaml") eid], [l1, l2], [eid]⟩ := by
    simp only [processFile, fileName, hc2, List.foldlM]
    rw [processEntry_dupStep (s2 ++ ".yaml") c2 eid ⟨[], [l1], [eid]⟩ kvs2 l2 hid2
      (by simp) hv2 hm2]
    simp [okBind]
  have hfold : List.foldlM processFile (⟨[], [], []⟩ : BState)
      [⟨s1, .ok (.vlist [.vdict kvs1])⟩, ⟨s2, .ok (.vlist [.vdict kvs2])⟩] =
      .ok ⟨[msgDup (s2 ++ ".yaml") eid], [l1, l2], [eid]⟩ := by
    simp only [List.foldlM, h1, okBind, h2]
    rfl
  unfold build
  rw [hfold]
  rfl

/-- First entry of the C3 witness scenario (`maps.yaml`). -/
def wEntry1 : List (String × Value) :=
  [("id", .vstr "g1"), ("display", .vstr "G"),
   ("url", .vstr "https://maps.example.com/x"),
   ("types", .vlist [.vstr "gps-coordinates"])]

/-- Second entry of the C3 witness scenario (`historical.yaml`), same
identifier `g1`. -/
def wEntry2 : List (String × Value) :=
  [("id", .vstr "g1"), ("display", .vstr "H"),
   ("url", .vstr "https://h.example.com"),
   ("types", .vlist [.vstr "name"])]

/-- Normalized record of `wEntry1`. -/
def wLink1 : Link :=
  ⟨"g1", "", "G", .vstr "https://www.google.com/s2/favicons?domain=maps.example.com&sz=32",
   "", "Global", "Free", "https://maps.example.com/x", "Maps", 0,
   [.vstr "gps-coordinates"], false⟩

/-- Normalized record of `wEntry2`. -/
def wLink2 : Link :=
  ⟨"g1", "", "H", .vstr "https://www.google.com/s2/favicons?domain=h.example.com&sz=32",
   "", "Global", "Free", "https://h.example.com", "Historical", 0,
   [.vstr "name"], false⟩

/-- C3 witness: the duplicate-ID theorem applied to the concrete
two-file scenario of the spec's test property (`id: "g1"` in both
`maps.yaml` and `historical.yaml`). -/
theorem claim_C3_witness :
    build [⟨"maps", .ok (.vlist [.vdict wEntry1])⟩,
           ⟨"historical", .ok (.vlist [.vdict wEntry2])⟩] "2026-10-12" false =
      .ok ⟨1, none, [msgDup ("historical" ++ ".yaml") "g1"], [wLink1, wLink2], ["g1"]⟩ :=
  claim_C3_duplicate_id "maps" "historical" "g1" "2026-10-12" false
    wEntry1 wEntry2 wLink1 wLink2 "Maps" "Historical"
    rfl rfl rfl rfl rfl rfl rfl rfl

/-! ## Claim C4 — run-level decision -/

/-- Reduction of `Except` bind on an error value. -/
theorem errBind {ε α β : Type} (e : ε) (f : α → Except ε β) :
    ((Except.error e : Except ε α) >>= f) = .error e := rfl

/-- Reduction of `pure` into the `Except` success constructor. -/
theorem pureE {ε α : Type} (a : α) : (pure a : Except ε α) = .ok a := rfl

/-- C4: for every run that completes, if at least one error was
accumulated (parse, structural, validation or duplicate — the error list
is non-empty), the run returns exit status 1 and produces no output
document regardless of the check-only flag; and in check-only mode no
output document is ever produced, regardless of validation outcome. -/
theorem claim_C4_no_output_on_error_or_check
    (files : List SourceFile) (today : String) (check_only : Bool) (out : Outcome)
    (h : build files today check_only = .ok out) :
    (out.errors ≠ [] → out.code = 1 ∧ out.output = none) ∧
    (check_only = true → out.output = none) := by
  unfold build at h
  cases files with
  | nil =>
      simp only [List.isEmpty_nil, if_true] at h
      injection h with h2
      subst h2
      exact ⟨fun hne => absurd rfl hne, fun _ => rfl⟩
  | cons f fs =>
      simp only [List.isEmpty_cons, Bool.false_eq_true, if_false] at h
      cases hst : List.foldlM processFile (⟨[], [], []⟩ : BState) (f :: fs) with
      | error e => rw [hst, errBind] at h; exact absurd h (by simp)
      | ok st =>
          rw [hst, okBind] at h
          cases herrs : st.errors with
          | nil =>
              rw [herrs] at h
              simp only [List.isEmpty_nil, if_true, pureE] at h
              cases check_only with
              | true =>
                  injection h with h2
                  subst h2
                  exact ⟨fun hne => absurd rfl hne, fun _ => rfl⟩
              | false =>
                  injection h with h2
                  subst h2
                  exact ⟨fun hne => absurd rfl hne, fun hck => by cases hck⟩
          | cons e0 es0 =>
              rw [herrs] at h
              simp only [List.isEmpty_cons, Bool.false_eq_true, if_false] at h
              injection h with h2
              subst h2
              exact ⟨fun _ => ⟨rfl, rfl⟩, fun _ => rfl⟩

/-- C4 witness: the theorem applied to the completed check-only run on
the C3 witness input (errors present); both conjuncts are discharged at
a concrete outcome. -/
theorem claim_C4_witness :
    ((⟨1, none, [msgDup ("historical" ++ ".yaml") "g1"], [wLink1, wLink2], ["g1"]⟩ :
        Outcome).errors ≠ [] →
      (⟨1, none, [msgDup ("historical" ++ ".yaml") "g1"], [wLink1, wLink2], ["g1"]⟩ :
        Outcome).code = 1 ∧
      (⟨1, none, [msgDup ("historical" ++ ".yaml") "g1"], [wLink1, wLink2], ["g1"]⟩ :
        Outcome).output = none) ∧
    (true = true →
      (⟨1, none, [msgDup ("historical" ++ ".yaml") "g1"], [wLink1, wLink2], ["g1"]⟩ :
        Outcome).output = none) :=
  claim_C4_no_output_on_error_or_check
    [⟨"maps", .ok (.vlist [.vdict wEntry1])⟩,
     ⟨"historical", .ok (.vlist [.vdict wEntry2])⟩] "2026-10-12" true
    ⟨1, none, [msgDup ("historical" ++ ".yaml") "g1"], [wLink1, wLink2], ["g1"]⟩ rfl

/-! ## Claim C5 — valid entries validate clean -/

theorem hashable_of_memb (v : Value) (set : List String)
    (h : membStrSet v set = true) : hashableB v = true := by
  cases v <;> simp_all [membStrSet, hashableB]

theorem typeElemErrs_all_known (loc : String) (ts : List Value)
    (h : ∀ t ∈ ts, membStrSet t KNOWN_TYPES = true) :
    typeElemErrs loc ts = .ok [] := by
  induction ts with
  | nil => rfl
  | cons t ts ih =>
      have hm := h t (List.mem_cons_self t ts)
      have hh := hashable_of_memb t KNOWN_TYPES hm
      have hrest := ih (fun x hx => h x (List.mem_cons_of_mem t hx))
      simp only [typeElemErrs, valueMemE, hh, if_true, okBind, hrest, hm]
      rfl

/-- C5: an entry whose required fields `id`, `display`, `url`, `types`
are present and truthy, whose `types` is a (necessarily non-empty) list
of recognised type strings, whose `payWall` (defaulted to `"Free"`) is a
recognised paywall string, whose `url` value is a string, and whose
placeholder formatters are all recognised, validates with the empty
error list. -/
theorem claim_C5_valid_entry_no_errors
    (kvs : List (String × Value)) (source : String) (ts : List Value) (u : String)
    (hid : (dictGet kvs "id" .vnone).truthy = true)
    (hdisp : (dictGet kvs "display" .vnone).truthy = true)
    (hurlT : (dictGet kvs "url" .vnone).truthy = true)
    (htyT : (dictGet kvs "types" .vnone).truthy = true)
    (hty : dictGet kvs "types" .vnone = .vlist ts)
    (hts : ∀ t ∈ ts, membStrSet t KNOWN_TYPES = true)
    (hpw : membStrSet (dictGet kvs "payWall" (.vstr "Free")) KNOWN_PAYWALLS = true)
    (hurl : dictGet kvs "url" (.vstr "") = .vstr u)
    (hfmt : ∀ p ∈ scanPlaceholders u, p.2 ≠ "" → KNOWN_FORMATTERS.contains p.2 = true) :
    validate_entry kvs source = .ok [] := by
  have hne : ts.isEmpty = false := by
    rw [hty] at htyT
    simpa [Value.truthy] using htyT
  have hpres : presenceErrs kvs (locOf kvs source) = [] := by
    simp [presenceErrs, hid, hdisp, hurlT, htyT]
  have hty2 : typesErrsE (locOf kvs source) (dictGet kvs "types" .vnone) = .ok [] := by
    rw [hty]
    simp only [typesErrsE, hne, Bool.false_eq_true, if_false]
    exact typeElemErrs_all_known _ ts hts
  have hpw2 : paywallErrE (locOf kvs source)
      (dictGet kvs "payWall" (.vstr "Free")) = .ok [] := by
    simp only [paywallErrE, valueMemE,
      hashable_of_memb _ KNOWN_PAYWALLS hpw, if_true, okBind, hpw]
    rfl
  have hfmt2 : fmtErrsE (locOf kvs source) (dictGet kvs "url" (.vstr "")) = .ok [] := by
    rw [hurl]
    have hfil : (scanPlaceholders u).filter
        (fun p => p.2 != "" && !(KNOWN_FORMATTERS.contains p.2)) = [] := by
      rw [List.filter_eq_nil_iff]
      intro p hp
      by_cases he : p.2 = ""
      · simp [he]
      · have hmem : p.2 ∈ KNOWN_FORMATTERS := by simpa using hfmt p hp he
        simp [he, hmem]
    simp only [fmtErrsE, fmtErrs, hfil, List.map_nil]
  simp only [validate_entry, hty2, okBind, hpw2, hfmt2, hpres]
  rfl

/-- The C5 witness entry: every required field present and truthy,
recognised types, explicit recognised paywall, and a placeholder with a
recognised formatter. -/
def wEntryC5 : List (String × Value) :=
  [("id", .vstr "v1"), ("display", .vstr "V"),
   ("url", .vstr "https://example.com/\x7bq|urlEncode\x7d"),
   ("types", .vlist [.vstr "name", .vstr "domain"]),
   ("payWall", .vstr "Freemium")]

/-- C5 witness: the theorem applied to the concrete valid entry. -/
theorem claim_C5_witness : validate_entry wEntryC5 "people-search.yaml" = .ok [] :=
  claim_C5_valid_entry_no_errors wEntryC5 "people-search.yaml"
    [.vstr "name", .vstr "domain"] "https://example.com/\x7bq|urlEncode\x7d"
    rfl rfl rfl rfl rfl
    (by
      intro t ht
      cases ht with
      | head => rfl
      | tail _ ht2 =>
          cases ht2 with
          | head => rfl
          | tail _ ht3 => cases ht3)
    rfl rfl
    (by
      rw [show scanPlaceholders "https://example.com/\x7bq|urlEncode\x7d" =
        [("q", "urlEncode")] from rfl]
      intro p hp
      cases hp with
      | head => intro h; rfl
      | tail _ hp2 => cases hp2)

/-! ## Claim C6 — missing required fields -/

/-- C6: for an entry missing (or carrying a falsy value for) any of
`id`, `display`, `url`, `types`, any completed validation returns an
error naming that field; and the validator is a full diagnostic pass:
its result always decomposes into the presence errors followed by the
outputs of the independent `types`, `payWall` and URL-formatter checks,
all of which still ran. -/
theorem claim_C6_missing_field_reported
    (kvs : List (String × Value)) (source field : String) (res : List String)
    (hf : field ∈ (["id", "display", "url", "types"] : List String))
    (hfalsy : (dictGet kvs field .vnone).truthy = false)
    (hok : validate_entry kvs source = .ok res) :
    msgMissing (locOf kvs source) field ∈ res ∧
    ∃ e2 e3 e4,
      res = presenceErrs kvs (locOf kvs source) ++ e2 ++ e3 ++ e4 ∧
      typesErrsE (locOf kvs source) (dictGet kvs "types" .vnone) = .ok e2 ∧
      paywallErrE (locOf kvs source) (dictGet kvs "payWall" (.vstr "Free")) = .ok e3 ∧
      fmtErrsE (locOf kvs source) (dictGet kvs "url" (.vstr "")) = .ok e4 := by
  simp only [validate_entry] at hok
  cases h2 : typesErrsE (locOf kvs source) (dictGet kvs "types" .vnone) with
  | error e => rw [h2, errBind] at hok; exact absurd hok (by simp)
  | ok e2 =>
  rw [h2, okBind] at hok
  cases h3 : paywallErrE (locOf kvs source) (dictGet kvs "payWall" (.vstr "Free")) with
  | error e => rw [h3, errBind] at hok; exact absurd hok (by simp)
  | ok e3 =>
  rw [h3, okBind] at hok
  cases h4 : fmtErrsE (locOf kvs source) (dictGet kvs "url" (.vstr "")) with
  | error e => rw [h4, errBind] at hok; exact absurd hok (by simp)
  | ok e4 =>
  rw [h4, okBind, pureE] at hok
  injection hok with hres
  subst hres
  refine ⟨?_, e2, e3, e4, rfl, rfl, rfl, rfl⟩
  have hmem : msgMissing (locOf kvs source) field ∈ presenceErrs kvs (locOf kvs source) := by
    unfold presenceErrs
    exact List.mem_map.mpr
      ⟨field, List.mem_filter.mpr ⟨hf, by simp [hfalsy]⟩, rfl⟩
  exact List.mem_append_left _ (List.mem_append_left _ (List.mem_append_left _ hmem))

/-- C6 witness: the theorem applied to an entry whose `display` field is
absent (and everything else valid); the completed validation contains
the error naming `display`. -/
theorem claim_C6_witness :
    msgMissing (locOf [("id", .vstr "x"), ("url", .vstr "https://e.com"),
        ("types", .vlist [.vstr "name"])] "maps.yaml") "display" ∈
      [msgMissing "maps.yaml id=x" "display"] ∧
    ∃ e2 e3 e4,
      [msgMissing "maps.yaml id=x" "display"] =
        presenceErrs [("id", .vstr "x"), ("url", .vstr "https://e.com"),
            ("types", .vlist [.vstr "name"])] (locOf [("id", .vstr "x"),
            ("url", .vstr "https://e.com"), ("types", .vlist [.vstr "name"])] "maps.yaml")
          ++ e2 ++ e3 ++ e4 ∧
      typesErrsE (locOf [("id", .vstr "x"), ("url", .vstr "https://e.com"),
          ("types", .vlist [.vstr "name"])] "maps.yaml")
        (dictGet [("id", .vstr "x"), ("url", .vstr "https://e.com"),
          ("types", .vlist [.vstr "name"])] "types" .vnone) = .ok e2 ∧
      paywallErrE (locOf [("id", .vstr "x"), ("url", .vstr "https://e.com"),
          ("types", .vlist [.vstr "name"])] "maps.yaml")
        (dictGet [("id", .vstr "x"), ("url", .vstr "https://e.com"),
          ("types", .vlist [.vstr "name"])] "payWall" (.vstr "Free")) = .ok e3 ∧
      fmtErrsE (locOf [("id", .vstr "x"), ("url", .vstr "https://e.com"),
          ("types", .vlist [.vstr "name"])] "maps.yaml")
        (dictGet [("id", .vstr "x"), ("url", .vstr "https://e.com"),
          ("types", .vlist [.vstr "name"])] "url" (.vstr "")) = .ok e4 :=
  claim_C6_missing_field_reported
    [("id", .vstr "x"), ("url", .vstr "https://e.com"), ("types", .vlist [.vstr "name"])]
    "maps.yaml" "display" [msgMissing "maps.yaml id=x" "display"]
    (by decide) rfl rfl

/-! ## Claim C7 — one error per unknown type element -/

theorem typeElemErrs_filter (loc : String) (ts : List Value)
    (h : ∀ t ∈ ts, hashableB t = true) :
    typeElemErrs loc ts =
      .ok ((ts.filter (fun t => !(membStrSet t KNOWN_TYPES))).map
        (msgUnknownType loc)) := by
  induction ts with
  | nil => rfl
  | cons t ts ih =>
      have hh := h t (List.mem_cons_self t ts)
      have hrest := ih (fun x hx => h x (List.mem_cons_of_mem t hx))
      simp only [typeElemErrs, valueMemE, hh, if_true, okBind, hrest]
      cases hm : membStrSet t KNOWN_TYPES with
      | true => simp only [List.filter_cons, hm, Bool.not_true, cond_false]; simp; rfl
      | false => simp only [List.filter_cons, hm, Bool.not_false, cond_true]; simp; rfl

/-- C7: for every entry whose `types` value is a non-empty list of
hashable elements (with a hashable `payWall` and a string `url`, so the
later checks complete), the validator's result contains, as its types
segment, exactly the unknown-type messages of the offending elements in
order — one error per element outside `KNOWN_TYPES`, whose count equals
the number of offending elements, never a single aggregate error. -/
theorem claim_C7_one_error_per_bad_type
    (kvs : List (String × Value)) (source : String) (ts : List Value)
    (hty : dictGet kvs "types" .vnone = .vlist ts) (hne : ts ≠ [])
    (hhash : ∀ t ∈ ts, hashableB t = true)
    (hpw : hashableB (dictGet kvs "payWall" (.vstr "Free")) = true)
    (hurl : ∃ u, dictGet kvs "url" (.vstr "") = .vstr u) :
    ∃ e3 e4,
      validate_entry kvs source =
        .ok (presenceErrs kvs (locOf kvs source) ++
          (ts.filter (fun t => !(membStrSet t KNOWN_TYPES))).map
            (msgUnknownType (locOf kvs source)) ++ e3 ++ e4) ∧
      ((ts.filter (fun t => !(membStrSet t KNOWN_TYPES))).map
          (msgUnknownType (locOf kvs source))).length =
        ts.countP (fun t => !(membStrSet t KNOWN_TYPES)) := by
  obtain ⟨u, hu⟩ := hurl
  have hns : ts.isEmpty = false := by
    cases ts with
    | nil => exact absurd rfl hne
    | cons a as => rfl
  have h2 : typesErrsE (locOf kvs source) (dictGet kvs "types" .vnone) =
      .ok ((ts.filter (fun t => !(membStrSet t KNOWN_TYPES))).map
        (msgUnknownType (locOf kvs source))) := by
    rw [hty]
    simp only [typesErrsE, hns, Bool.false_eq_true, if_false]
    exact typeElemErrs_filter _ ts hhash
  have h3 : paywallErrE (locOf kvs source) (dictGet kvs "payWall" (.vstr "Free")) =
      .ok (if membStrSet (dictGet kvs "payWall" (.vstr "Free")) KNOWN_PAYWALLS
        then []
        else [msgPayWall (locOf kvs source) (dictGet kvs "payWall" (.vstr "Free"))]) := by
    simp only [paywallErrE, valueMemE, hpw, if_true, okBind]
    rfl
  have h4 : fmtErrsE (locOf kvs source) (dictGet kvs "url" (.vstr "")) =
      .ok (fmtErrs (locOf kvs source) u) := by
    rw [hu]
    rfl
  refine ⟨(if membStrSet (dictGet kvs "payWall" (.vstr "Free")) KNOWN_PAYWALLS
      then []
      else [msgPayWall (locOf kvs source) (dictGet kvs "payWall" (.vstr "Free"))]),
    fmtErrs (locOf kvs source) u, ?_, ?_⟩
  · simp only [validate_entry, h2, okBind, h3, h4, pureE]
  · simp [List.countP_eq_length_filter]

/-- C7 witness: the theorem applied to an entry whose `types` list holds
two unknown elements around a known one; the types segment is exactly
the two unknown-type errors and its length is the offending count. -/
theorem claim_C7_witness :
    ∃ e3 e4,
      validate_entry [("id", .vstr "a"), ("display", .vstr "d"), ("url", .vstr "u"),
          ("types", .vlist [.vstr "bad1", .vstr "name", .vstr "bad2"])] "maps.yaml" =
        .ok (presenceErrs [("id", .vstr "a"), ("display", .vstr "d"), ("url", .vstr "u"),
            ("types", .vlist [.vstr "bad1", .vstr "name", .vstr "bad2"])]
            (locOf [("id", .vstr "a"), ("display", .vstr "d"), ("url", .vstr "u"),
              ("types", .vlist [.vstr "bad1", .vstr "name", .vstr "bad2"])] "maps.yaml") ++
          (([.vstr "bad1", .vstr "name", .vstr "bad2"] : List Value).filter
              (fun t => !(membStrSet t KNOWN_TYPES))).map
            (msgUnknownType (locOf [("id", .vstr "a"), ("display", .vstr "d"),
              ("url", .vstr "u"),
              ("types", .vlist [.vstr "bad1", .vstr "name", .vstr "bad2"])] "maps.yaml"))
          ++ e3 ++ e4) ∧
      ((([.vstr "bad1", .vstr "name", .vstr "bad2"] : List Value).filter
          (fun t => !(membStrSet t KNOWN_TYPES))).map
        (msgUnknownType (locOf [("id", .vstr "a"), ("display", .vstr "d"),
          ("url", .vstr "u"),
          ("types", .vlist [.vstr "bad1", .vstr "name", .vstr "bad2"])] "maps.yaml"))).length =
      ([.vstr "bad1", .vstr "name", .vstr "bad2"] : List Value).countP
        (fun t => !(membStrSet t KNOWN_TYPES)) :=
  claim_C7_one_error_per_bad_type
    [("id", .vstr "a"), ("display", .vstr "d"), ("url", .vstr "u"),
     ("types", .vlist [.vstr "bad1", .vstr "name", .vstr "bad2"])]
    "maps.yaml" [.vstr "bad1", .vstr "name", .vstr "bad2"]
    rfl (List.cons_ne_nil _ _)
    (by
      intro t ht
      cases ht with
      | head => rfl
      | tail _ h2 =>
          cases h2 with
          | head => rfl
          | tail _ h3 =>
              cases h3 with
              | head => rfl
              | tail _ h4 => cases h4)
    rfl ⟨"u", rfl⟩

/-! ## Claim C8 — placeholder parsing and formatter errors -/

/-- A valid entry whose URL holds the placeholder
`\x7bemail|urlEncode\x7d` (recognised formatter). -/
def entryGoodFmt : List (String × Value) :=
  [("id", .vstr "e"), ("display", .vstr "E"),
   ("url", .vstr "https://example.com/\x7bemail|urlEncode\x7d"),
   ("types", .vlist [.vstr "email-address"])]

/-- The same entry with the unrecognised formatter `frobnicate`. -/
def entryBadFmt : List (String × Value) :=
  [("id", .vstr "e"), ("display", .vstr "E"),
   ("url", .vstr "https://example.com/\x7bemail|frobnicate\x7d"),
   ("types", .vlist [.vstr "email-address"])]

/-- C8: the placeholder scan parses each occurrence of the three
grammar forms into its `(name, formatter)` pair (`formatter = ""` for
the bare form); the validator's formatter check emits exactly one error
per occurrence whose formatter is non-empty and outside
`KNOWN_FORMATTERS` (the count of formatter errors equals the count of
offending occurrences, for every URL); and on the spec's two example
URLs, `urlEncode` produces no error while `frobnicate` produces exactly
one unknown-formatter error. -/
theorem claim_C8_placeholder_formatters :
    (∀ loc u, (fmtErrs loc u).length = (scanPlaceholders u).countP
        (fun p => p.2 != "" && !(KNOWN_FORMATTERS.contains p.2))) ∧
    scanPlaceholders "\x7bname\x7d" = [("name", "")] ∧
    scanPlaceholders "\x7bname:upper\x7d" = [("name", "upper")] ∧
    scanPlaceholders "\x7bname|upper\x7d" = [("name", "upper")] ∧
    scanPlaceholders "https://example.com/\x7bemail|urlEncode\x7d" =
      [("email", "urlEncode")] ∧
    scanPlaceholders "https://example.com/\x7bemail|frobnicate\x7d" =
      [("email", "frobnicate")] ∧
    validate_entry entryGoodFmt "links.yaml" = .ok [] ∧
    validate_entry entryBadFmt "links.yaml" =
      .ok [msgUnknownFormatter "links.yaml id=e" "frobnicate"] := by
  refine ⟨fun loc u => ?_, rfl, rfl, rfl, rfl, rfl, rfl, rfl⟩
  simp [fmtErrs, List.countP_eq_length_filter]

/-! ## Claim C9 — output record invariants -/

theorem mkLink_fields (category eid : String) (kvs : List (String × Value)) (l : Link)
    (h : mkLink category eid kvs = .ok l) :
    l.icon ≠ Value.vnone ∧ l.category = category := by
  unfold mkLink at h
  cases h1 : pyIntE (dictGet kvs "priority" (.vint 0)) with
  | error e => rw [h1, errBind] at h; exact absurd h (by simp)
  | ok pr =>
  rw [h1, okBind] at h
  cases h2 : pyListE (dictGet kvs "types" (.vlist [])) with
  | error e => rw [h2, errBind] at h; exact absurd h (by simp)
  | ok tys =>
  rw [h2, okBind, pureE] at h
  injection h with h3
  subst h3
  refine ⟨?_, rfl⟩
  show (if (dictGet kvs "icon" .vnone).truthy then dictGet kvs "icon" .vnone
        else Value.vstr (favicon_url (pyStrStrip (pyStrOf (dictGet kvs "url"
          (.vstr "")))))) ≠ Value.vnone
  cases hic : (dictGet kvs "icon" .vnone).truthy with
  | false => simp [hic]
  | true =>
      simp only [hic, if_true]
      intro hv
      rw [hv] at hic
      exact absurd hic (by simp [Value.truthy])

theorem processEntry_links (fname category : String) (st : BState) (e : Value)
    (st2 : BState) (h : processEntry fname category st e = .ok st2) :
    ∀ l ∈ st2.links, l ∈ st.links ∨ (l.icon ≠ Value.vnone ∧ l.category = category) := by
  cases e with
  | vdict kvs =>
      simp only [processEntry] at h
      cases hv : validate_entry kvs fname with
      | error u => rw [hv, errBind] at h; exact absurd h (by simp)
      | ok verrs =>
      rw [hv, okBind] at h
      cases hm : mkLink category (pyStrOf (dictGet kvs "id" (.vstr ""))) kvs with
      | error u => rw [hm, errBind] at h; exact absurd h (by simp)
      | ok l0 =>
      rw [hm, okBind, pureE] at h
      injection h with h2
      subst h2
      intro l hl
      simp only [List.mem_append, List.mem_singleton] at hl
      rcases hl with hl | hl
      · exact Or.inl hl
      · subst hl; exact Or.inr (mkLink_fields _ _ _ _ hm)
  | vnone =>
      injection h with h2; subst h2; exact fun l hl => Or.inl hl
  | vbool b =>
      injection h with h2; subst h2; exact fun l hl => Or.inl hl
  | vint n =>
      injection h with h2; subst h2; exact fun l hl => Or.inl hl
  | vstr s =>
      injection h with h2; subst h2; exact fun l hl => Or.inl hl
  | vlist xs =>
      injection h with h2; subst h2; exact fun l hl => Or.inl hl

theorem foldEntries_links (fname category : String) (es : List Value) :
    ∀ st st2, es.foldlM (processEntry fname category) st = .ok st2 →
      ∀ l ∈ st2.links, l ∈ st.links ∨ (l.icon ≠ Value.vnone ∧ l.category = category) := by
  induction es with
  | nil =>
      intro st st2 h
      injection h with h2
      subst h2
      exact fun l hl => Or.inl hl
  | cons e es ih =>
      intro st st2 h
      simp only [List.foldlM] at h
      cases hpe : processEntry fname category st e with
      | error u => rw [hpe, errBind] at h; exact absurd h (by simp)
      | ok st1 =>
      rw [hpe, okBind] at h
      intro l hl
      rcases ih st1 st2 h l hl with hin | hgood
      · exact processEntry_links fname category st e st1 hpe l hin
      · exact Or.inr hgood

theorem processFile_links (st : BState) (f : SourceFile) (st2 : BState)
    (h : processFile st f = .ok st2) :
    ∀ l ∈ st2.links, l ∈ st.links ∨
      (l.icon ≠ Value.vnone ∧ lookupCategory f.stem = some l.category) := by
  unfold processFile at h
  cases hcat : lookupCategory f.stem with
  | none =>
      rw [hcat] at h
      injection h with h2
      subst h2
      exact fun l hl => Or.inl hl
  | some category =>
      rw [hcat] at h
      cases hc : f.content with
      | error exc =>
          rw [hc] at h
          injection h with h2
          subst h2
          exact fun l hl => Or.inl hl
      | ok v =>
          rw [hc] at h
          cases v with
          | vlist es =>
              intro l hl
              rcases foldEntries_links (fileName f) category es st st2 h l hl with
                hin | ⟨hicon, hfcat⟩
              · exact Or.inl hin
              · exact Or.inr ⟨hicon, by rw [hfcat]⟩
          | vnone =>
              injection h with h2; subst h2; exact fun l hl => Or.inl hl
          | vbool b =>
              injection h with h2; subst h2; exact fun l hl => Or.inl hl
          | vint n =>
              injection h with h2; subst h2; exact fun l hl => Or.inl hl
          | vstr s =>
              injection h with h2; subst h2; exact fun l hl => Or.inl hl
          | vdict kvs =>
              injection h with h2; subst h2; exact fun l hl => Or.inl hl

theorem foldFiles_links (fs : List SourceFile) :
    ∀ st st2, fs.foldlM processFile st = .ok st2 →
      ∀ l ∈ st2.links, l ∈ st.links ∨
        (l.icon ≠ Value.vnone ∧ ∃ f ∈ fs, lookupCategory f.stem = some l.category) := by
  induction fs with
  | nil =>
      intro st st2 h
      injection h with h2
      subst h2
      exact fun l hl => Or.inl hl
  | cons f fs ih =>
      intro st st2 h
      simp only [List.foldlM] at h
      cases hpf : processFile st f with
      | error u => rw [hpf, errBind] at h; exact absurd h (by simp)
      | ok st1 =>
      rw [hpf, okBind] at h
      intro l hl
      rcases ih st1 st2 h l hl with hin | ⟨hicon, g, hg, hgcat⟩
      · rcases processFile_links st f st1 hpf l hin with hin2 | ⟨hicon, hfcat⟩
        · exact Or.inl hin2
        · exact Or.inr ⟨hicon, f, List.mem_cons_self f fs, hfcat⟩
      · exact Or.inr ⟨hicon, g, List.mem_cons_of_mem f hg, hgcat⟩

/-- C9: in every completed run, every Output Link Record appended to the
link list has all twelve fields concretely present — the only field that
can carry a raw entry value, `icon`, is never `None` (it is either the
entry's truthy value or the derived, possibly empty, favicon string; the
other eleven fields are concretely typed strings, integer, list and
boolean by construction) — and its `category` equals the Registry
mapping of the stem of a source file of the run. -/
theorem claim_C9_record_invariants
    (files : List SourceFile) (today : String) (check_only : Bool) (out : Outcome)
    (h : build files today check_only = .ok out) :
    ∀ l ∈ out.links, l.icon ≠ Value.vnone ∧
      ∃ f ∈ files, lookupCategory f.stem = some l.category := by
  unfold build at h
  cases files with
  | nil =>
      simp only [List.isEmpty_nil, if_true] at h
      injection h with h2
      subst h2
      intro l hl
      cases hl
  | cons f fs =>
      simp only [List.isEmpty_cons, Bool.false_eq_true, if_false] at h
      cases hst : List.foldlM processFile (⟨[], [], []⟩ : BState) (f :: fs) with
      | error e => rw [hst, errBind] at h; exact absurd h (by simp)
      | ok st =>
      rw [hst, okBind] at h
      have hlinks : ∀ l ∈ st.links, l.icon ≠ Value.vnone ∧
          ∃ g ∈ f :: fs, lookupCategory g.stem = some l.category := by
        intro l hl
        rcases foldFiles_links (f :: fs) ⟨[], [], []⟩ st hst l hl with hin | ⟨hicon, hg⟩
        · cases hin
        · exact ⟨hicon, hg⟩
      cases herrs : st.errors with
      | nil =>
          rw [herrs] at h
          simp only [List.isEmpty_nil, if_true, pureE] at h
          cases check_only with
          | true => injection h with h2; subst h2; exact hlinks
          | false => injection h with h2; subst h2; exact hlinks
      | cons e0 es0 =>
          rw [herrs] at h
          simp only [List.isEmpty_cons, Bool.false_eq_true, if_false] at h
          injection h with h2
          subst h2
          exact hlinks

/-- The single record of the completed clean one-file run. -/
def wLinkC9 : Link :=
  ⟨"m1", "", "M",
   .vstr "https://www.google.com/s2/favicons?domain=maps.example.com&sz=32",
   "", "Global", "Free", "https://maps.example.com", "Maps", 0,
   [.vstr "gps-coordinates"], false⟩

/-- C9 witness: the theorem applied to the completed clean one-file run,
instantiated at its single record, which has a non-`None` icon and the
`Maps` category mapped from the `maps` stem. -/
theorem claim_C9_witness :
    wLinkC9.icon ≠ Value.vnone ∧
    ∃ f ∈ oneGoodFile, lookupCategory f.stem = some wLinkC9.category :=
  claim_C9_record_invariants oneGoodFile "2026-10-12" false
    ⟨0, some ⟨outputNote, "1.0.0", "2026-10-12", [wLinkC9]⟩, [], [wLinkC9], ["m1"]⟩
    rfl wLinkC9 (List.mem_cons_self wLinkC9 [])

/-! ## Claim C10 — falsy icon triggers derivation -/

/-- C10: for every entry whose `icon` value is falsy — absent, `None`,
or present as the empty string — the normalized record's `icon` is the
derived favicon URL of the entry's stripped `url`: derivation is
triggered by Python truthiness (`entry.get("icon") or favicon_url(url)`),
not only by absence of the field. -/
theorem claim_C10_falsy_icon_derives
    (category eid : String) (kvs : List (String × Value)) (l : Link)
    (hicon : (dictGet kvs "icon" .vnone).truthy = false)
    (h : mkLink category eid kvs = .ok l) :
    l.icon = .vstr (favicon_url (pyStrStrip (pyStrOf (dictGet kvs "url" (.vstr ""))))) := by
  unfold mkLink at h
  cases h1 : pyIntE (dictGet kvs "priority" (.vint 0)) with
  | error e => rw [h1, errBind] at h; exact absurd h (by simp)
  | ok pr =>
  rw [h1, okBind] at h
  cases h2 : pyListE (dictGet kvs "types" (.vlist [])) with
  | error e => rw [h2, errBind] at h; exact absurd h (by simp)
  | ok tys =>
  rw [h2, okBind, pureE] at h
  injection h with h3
  subst h3
  show (if (dictGet kvs "icon" .vnone).truthy then dictGet kvs "icon" .vnone
        else Value.vstr (favicon_url (pyStrStrip (pyStrOf (dictGet kvs "url"
          (.vstr "")))))) =
    Value.vstr (favicon_url (pyStrStrip (pyStrOf (dictGet kvs "url" (.vstr "")))))
  rw [hicon]
  simp

/-- The C10 witness entry: `icon` present but equal to the empty string. -/
def wEntryC10 : List (String × Value) :=
  [("id", .vstr "i1"), ("display", .vstr "I"), ("icon", .vstr ""),
   ("url", .vstr "https://icons.example.com/x"), ("types", .vlist [.vstr "name"])]

/-- C10 witness: the theorem applied to the concrete entry with an
explicit empty-string icon; the record's icon is the derived favicon URL
of its url. -/
theorem claim_C10_witness :
    (⟨"i1", "", "I",
      .vstr "https://www.google.com/s2/favicons?domain=icons.example.com&sz=32",
      "", "Global", "Free", "https://icons.example.com/x", "Maps", 0,
      [.vstr "name"], false⟩ : Link).icon =
    .vstr (favicon_url (pyStrStrip (pyStrOf (dictGet wEntryC10 "url" (.vstr ""))))) :=
  claim_C10_falsy_icon_derives "Maps" "i1" wEntryC10 _ rfl rfl
